import Mathlib

/-!
Verification development for the GeoGrid repository
(`src/streamlit_geo_grid_tracker.py`, class `GeoGridTracker`).

Modelling conventions:
* Python floats are modelled as exact rationals (`ℚ`); the claims under
  study are about the arithmetic structure of the code, not about
  floating-point rounding.
* `math.cos(math.radians(center_lat))` is abstracted as an explicit
  parameter `cosLat : ℚ` (its value is transcendental; every theorem that
  needs it only assumes a sign condition that holds for the real cosine of
  a latitude strictly between the poles).
* `geopy.distance.geodesic(..).kilometers` is an external collaborator; it
  is abstracted as a parameter
  `dist : ℚ → ℚ → ℚ → ℚ → ℚ` taking the two coordinate pairs.
* Python's `ZeroDivisionError` is modelled explicitly: every division whose
  denominator is a run-time value goes through `pydiv`, which returns an
  `Except PyError` result, exactly where the Python code can raise.
* Python's `int(...)` truncates toward zero; this is `truncInt` below.
-/

/-- The only exception the embedded code can raise. -/
inductive PyError where
  | zeroDivisionError
deriving DecidableEq, Repr

abbrev Py (α : Type) := Except PyError α

/-- Division as Python performs it on floats: raises `ZeroDivisionError`
when the denominator is zero. -/
def pydiv (a b : ℚ) : Py ℚ :=
  if b = 0 then .error .zeroDivisionError else .ok (a / b)

/-- Python's `int(...)` applied to a float: truncation toward zero. -/
def truncInt (q : ℚ) : ℤ :=
  if 0 ≤ q then ⌊q⌋ else -⌊-q⌋

/-- One entry of the list produced by `GeoGridTracker.generate_grid`
(the dict `{"lat": .., "lng": .., "distance_km": ..}`, source lines 60-64). -/
structure GridPoint where
  lat : ℚ
  lng : ℚ
  distance_km : ℚ
deriving DecidableEq, Repr

/-- The body of the double loop of `generate_grid` (source lines 53-64):
computes the lattice point for indices `(i, j)`, its distance from the
center, and keeps it when the distance is at most `radius_km`.  The two
divisions by `lat_steps - 1` and `lng_steps - 1` happen inside the loop in
the Python code, so they are modelled here, in the same order. -/
def gridBody (dist : ℚ → ℚ → ℚ → ℚ → ℚ)
    (center_lat center_lng radius_km lat_degree_radius lng_degree_radius : ℚ)
    (lat_steps lng_steps : ℤ) (i j : ℕ) : Py (Option GridPoint) :=
  match pydiv (2 * lat_degree_radius) ((lat_steps : ℚ) - 1) with
  | .error e => .error e
  | .ok stepLat =>
    let point_lat := center_lat - lat_degree_radius + (i : ℚ) * stepLat
    match pydiv (2 * lng_degree_radius) ((lng_steps : ℚ) - 1) with
    | .error e => .error e
    | .ok stepLng =>
      let point_lng := center_lng - lng_degree_radius + (j : ℚ) * stepLng
      let point_distance := dist center_lat center_lng point_lat point_lng
      if point_distance ≤ radius_km then
        .ok (some ⟨point_lat, point_lng, point_distance⟩)
      else
        .ok none

/-- The inner `for j in range(lng_steps)` loop: appends the kept points to
the accumulated list, propagating any exception. -/
def innerLoop (body : ℕ → Py (Option GridPoint)) :
    List ℕ → List GridPoint → Py (List GridPoint)
  | [], acc => .ok acc
  | j :: js, acc =>
    match body j with
    | .error e => .error e
    | .ok (some p) => innerLoop body js (acc ++ [p])
    | .ok none => innerLoop body js acc

/-- The outer `for i in range(lat_steps)` loop. -/
def outerLoop (body : ℕ → List GridPoint → Py (List GridPoint)) :
    List ℕ → List GridPoint → Py (List GridPoint)
  | [], acc => .ok acc
  | i :: is, acc =>
    match body i acc with
    | .error e => .error e
    | .ok acc2 => outerLoop body is acc2

/-- Embedding of `GeoGridTracker.generate_grid` (source lines 35-66).
`dist` stands for `geopy.distance.geodesic(..).kilometers` and `cosLat`
for `math.cos(math.radians(center_lat))`; every run-time division is a
`pydiv`, in the order the Python code performs them. -/
def generate_grid (dist : ℚ → ℚ → ℚ → ℚ → ℚ)
    (center_lat center_lng radius_km spacing_km cosLat : ℚ) :
    Py (List GridPoint) :=
  let lat_degree_radius := radius_km / 111
  match pydiv radius_km (111 * cosLat) with
  | .error e => .error e
  | .ok lng_degree_radius =>
    match pydiv (2 * lat_degree_radius) (spacing_km / 111) with
    | .error e => .error e
    | .ok q1 =>
      let lat_steps : ℤ := truncInt q1 + 1
      match pydiv spacing_km (111 * cosLat) with
      | .error e => .error e
      | .ok d2 =>
        match pydiv (2 * lng_degree_radius) d2 with
        | .error e => .error e
        | .ok q2 =>
          let lng_steps : ℤ := truncInt q2 + 1
          outerLoop
            (fun i acc =>
              innerLoop
                (gridBody dist center_lat center_lng radius_km
                  lat_degree_radius lng_degree_radius lat_steps lng_steps i)
                (List.range lng_steps.toNat) acc)
            (List.range lat_steps.toNat) []

/-- The pure value of one loop-body evaluation when the step counts are at
least 2 (so the in-loop divisions cannot raise). -/
def gridCell (dist : ℚ → ℚ → ℚ → ℚ → ℚ)
    (center_lat center_lng radius_km lat_degree_radius lng_degree_radius : ℚ)
    (lat_steps lng_steps : ℤ) (i j : ℕ) : Option GridPoint :=
  let point_lat := center_lat - lat_degree_radius +
    (i : ℚ) * (2 * lat_degree_radius / ((lat_steps : ℚ) - 1))
  let point_lng := center_lng - lng_degree_radius +
    (j : ℚ) * (2 * lng_degree_radius / ((lng_steps : ℚ) - 1))
  let point_distance := dist center_lat center_lng point_lat point_lng
  if point_distance ≤ radius_km then
    some ⟨point_lat, point_lng, point_distance⟩
  else
    none

/-- The full list of kept grid points, row-major, when no exception
occurs. -/
def gridList (dist : ℚ → ℚ → ℚ → ℚ → ℚ)
    (center_lat center_lng radius_km lat_degree_radius lng_degree_radius : ℚ)
    (lat_steps lng_steps : ℤ) : List GridPoint :=
  (List.range lat_steps.toNat).flatMap fun i =>
    (List.range lng_steps.toNat).filterMap fun j =>
      gridCell dist center_lat center_lng radius_km
        lat_degree_radius lng_degree_radius lat_steps lng_steps i j

/-- The latitude step count computed at source line 47:
`int(2 * lat_degree_radius / (spacing_km / 111.0)) + 1`. -/
def latStepsOf (radius_km spacing_km : ℚ) : ℤ :=
  truncInt (2 * (radius_km / 111) / (spacing_km / 111)) + 1

/-- The longitude step count computed at source line 48, with the cosine
correction. -/
def lngStepsOf (radius_km spacing_km cosLat : ℚ) : ℤ :=
  truncInt (2 * (radius_km / (111 * cosLat)) / (spacing_km / (111 * cosLat))) + 1

/-- A trivial distance function, used to instantiate the abstract
collaborator in concrete evaluations. -/
def distZero : ℚ → ℚ → ℚ → ℚ → ℚ := fun _ _ _ _ => 0

/-- One entry of a SERP result list; only the `title` field is read by the
rank finder (`result.get("title", "")`, absent title defaulting to the empty
string). -/
structure SerpResult where
  title : Option (List Char)
deriving DecidableEq, Repr

/-- The part of the SerpAPI response dict read by `find_business_rank`:
the optional keys `organic_results` and `local_results`. -/
structure SerpData where
  organic_results : Option (List SerpResult)
  local_results : Option (List SerpResult)
deriving DecidableEq, Repr

/-- The dict returned by `find_business_rank` (source lines 123-128). -/
structure RankData where
  organic_rank : Option ℕ
  local_pack_rank : Option ℕ
  is_in_organic : Bool
  is_in_local_pack : Bool
deriving DecidableEq, Repr

/-- Python's `str.lower()`; modelled on the characters the claims exercise
via `Char.toLower`. -/
def pyLower (s : List Char) : List Char := s.map Char.toLower

/-- Python's substring test `needle in haystack`. -/
def pyIn (needle haystack : List Char) : Bool := decide (needle <:+: haystack)

/-- One of the two identical search loops of `find_business_rank`
(source lines 110-113 and 118-121): `i` is the running `enumerate` index;
the first matching entry yields rank `i + 1`. -/
def rankScan (business_name : List Char) : ℕ → List SerpResult → Option ℕ
  | _, [] => none
  | i, result :: rest =>
    if pyIn (pyLower business_name) (pyLower (result.title.getD [])) then
      some (i + 1)
    else
      rankScan business_name (i + 1) rest

/-- Embedding of `GeoGridTracker.find_business_rank` (source lines 105-128):
scans `organic_results` and `local_results` (each skipped entirely when the
key is absent) and records the 1-based rank of the first title containing
the lowercased business name, plus the derived presence booleans. -/
def find_business_rank (serp_data : SerpData) (business_name : List Char) :
    RankData :=
  let organic_rank :=
    match serp_data.organic_results with
    | some results => rankScan business_name 0 results
    | none => none
  let local_pack_rank :=
    match serp_data.local_results with
    | some results => rankScan business_name 0 results
    | none => none
  { organic_rank := organic_rank
    local_pack_rank := local_pack_rank
    is_in_organic := organic_rank.isSome
    is_in_local_pack := local_pack_rank.isSome }

/-- The test applied to each entry: the lowercased business name occurs as a
substring of the lowercased title (empty string when the title is absent). -/
def titleMatch (business_name : List Char) (result : SerpResult) : Bool :=
  pyIn (pyLower business_name) (pyLower (result.title.getD []))

/-- Reference formulation of a first-match 1-based position, used to state
the rank-finder claims. -/
def firstMatchPos (p : SerpResult → Bool) : List SerpResult → Option ℕ
  | [] => none
  | r :: rs =>
    if p r then some 1 else (firstMatchPos p rs).map (· + 1)

/-- One element of `self.results_data` (the dict assembled at source lines
162-170: business name, keyword, the point's coordinates and distance, a
timestamp, and the four `find_business_rank` fields). The timestamp carries
no structure the summary reads, so it is an opaque tag. -/
structure ResultRecord where
  business_name : List Char
  keyword : List Char
  lat : ℚ
  lng : ℚ
  distance_km : ℚ
  timestamp : ℕ
  organic_rank : Option ℕ
  local_pack_rank : Option ℕ
  is_in_organic : Bool
  is_in_local_pack : Bool
deriving DecidableEq, Repr

/-- The `summary` dict of `generate_summary_data` (source lines 240-254);
the two average-rank keys are only inserted when the presence count is
positive, hence `Option`. -/
structure SummaryOverall where
  business_name : List Char
  total_queries : ℕ
  organic_presence : ℕ
  organic_presence_pct : ℚ
  local_pack_presence : ℕ
  local_pack_presence_pct : ℚ
  avg_organic_rank : Option ℚ
  avg_local_rank : Option ℚ
deriving DecidableEq, Repr

/-- One entry of `keyword_stats_list` (source lines 269-283). -/
structure KeywordStat where
  keyword : List Char
  organic_presence : ℕ
  organic_presence_pct : ℚ
  local_pack_presence : ℕ
  local_pack_presence_pct : ℚ
  avg_organic_rank : Option ℚ
  avg_local_pack_rank : Option ℚ
deriving DecidableEq, Repr

/-- The four labels of `pd.cut(..., labels=['0-1km','1-2km','2-5km','5km+'])`
(source line 288). -/
inductive DistanceBin where
  | b0to1
  | b1to2
  | b2to5
  | b5plus
deriving DecidableEq, Repr

/-- The bin `pd.cut(df['distance_km'], bins=[0, 1, 2, 5, inf], ...)` assigns
to one distance (source lines 286-288).  `pd.cut` uses right-closed
intervals by default, so the bins are `(0,1]`, `(1,2]`, `(2,5]`, `(5,∞)`;
a value at or below the leftmost edge 0 falls in no bin (`NaN`), and such a
record is dropped from the distance grouping. -/
def distance_bin (d : ℚ) : Option DistanceBin :=
  if 0 < d ∧ d ≤ 1 then some .b0to1
  else if 1 < d ∧ d ≤ 2 then some .b1to2
  else if 2 < d ∧ d ≤ 5 then some .b2to5
  else if 5 < d then some .b5plus
  else none

/-- One entry of `distance_stats_list` (source lines 299-311). -/
structure DistanceStat where
  distance_bin : DistanceBin
  organic_presence_pct : ℚ
  local_pack_presence_pct : ℚ
  avg_organic_rank : Option ℚ
  avg_local_pack_rank : Option ℚ
deriving DecidableEq, Repr

/-- The dict returned by `generate_summary_data` (source lines 313-318). -/
structure SummaryData where
  summary : SummaryOverall
  keyword_stats : List KeywordStat
  distance_stats : List DistanceStat
  raw_data : List ResultRecord
deriving DecidableEq, Repr

/-- A pandas `.sum()` over a boolean column: the number of `True` rows. -/
def countTrue (f : ResultRecord → Bool) (l : List ResultRecord) : ℕ :=
  (l.filter f).length

/-- The non-null values of a rank column, as rationals. -/
def ranksOf (f : ResultRecord → Option ℕ) (l : List ResultRecord) : List ℚ :=
  l.filterMap fun r => (f r).map fun k => (k : ℚ)

/-- A pandas `.mean()` over a list of rationals.  (On an empty list pandas
yields `NaN`; every use below is guarded by a non-emptiness test in the
code, except the presence means over an empty distance bin, where the `NaN`
is modelled as the rational `0/0 = 0`.) -/
def ratMean (l : List ℚ) : ℚ := l.sum / (l.length : ℚ)

/-- Python string comparison `a < b` (lexicographic by code point), used to
model the sorted group keys of `df.groupby('keyword')`. -/
def lexLt : List Char → List Char → Bool
  | [], [] => false
  | [], _ :: _ => true
  | _ :: _, [] => false
  | a :: as, b :: bs => if a = b then lexLt as bs else decide (a < b)

/-- The distinct keyword values in the sorted order `groupby` (with its
default `sort=True`) produces them. -/

def sortedKeywords (df : List ResultRecord) : List (List Char) :=
  ((df.map (fun r => r.keyword)).dedup).insertionSort fun a b => lexLt a b = true

/-- The aggregate row for one keyword group (source lines 257-283). -/
def keywordStatFor (df : List ResultRecord) (k : List Char) : KeywordStat :=
  let sub := df.filter fun r => r.keyword == k
  let keyword_count := sub.length
  let organicRanks := ranksOf (fun r => r.organic_rank) sub
  let localRanks := ranksOf (fun r => r.local_pack_rank) sub
  { keyword := k
    organic_presence := countTrue (fun r => r.is_in_organic) sub
    organic_presence_pct :=
      (countTrue (fun r => r.is_in_organic) sub : ℚ) / (keyword_count : ℚ) * 100
    local_pack_presence := countTrue (fun r => r.is_in_local_pack) sub
    local_pack_presence_pct :=
      (countTrue (fun r => r.is_in_local_pack) sub : ℚ) / (keyword_count : ℚ) * 100
    avg_organic_rank :=
      if 0 < organicRanks.length then some (ratMean organicRanks) else none
    avg_local_pack_rank :=
      if 0 < localRanks.length then some (ratMean localRanks) else none }

/-- The fixed category order of the binned column: `groupby` over a pandas
categorical (default `observed=False`) yields one row per declared category,
in declaration order, even when a bin is empty. -/
def allBins : List DistanceBin := [.b0to1, .b1to2, .b2to5, .b5plus]

/-- The aggregate row for one distance bin (source lines 290-311): presence
percentages are means of the boolean columns times 100; average ranks are
omitted when the bin holds no non-null rank. -/
def distanceStatFor (df : List ResultRecord) (b : DistanceBin) : DistanceStat :=
  let sub := df.filter fun r => distance_bin r.distance_km == some b
  let organicRanks := ranksOf (fun r => r.organic_rank) sub
  let localRanks := ranksOf (fun r => r.local_pack_rank) sub
  { distance_bin := b
    organic_presence_pct :=
      ratMean (sub.map fun r => if r.is_in_organic then (1 : ℚ) else 0) * 100
    local_pack_presence_pct :=
      ratMean (sub.map fun r => if r.is_in_local_pack then (1 : ℚ) else 0) * 100
    avg_organic_rank :=
      if 0 < organicRanks.length then some (ratMean organicRanks) else none
    avg_local_pack_rank :=
      if 0 < localRanks.length then some (ratMean localRanks) else none }

/-- Embedding of `GeoGridTracker.generate_summary_data` (source lines
227-318): `None` on an empty record collection (`if not self.results_data`),
otherwise the overall summary, the per-keyword stats, and the per-distance-bin
stats. -/
def generate_summary_data (results_data : List ResultRecord) :
    Option SummaryData :=
  match results_data with
  | [] => none
  | r0 :: _ =>
    let df := results_data
    let total_queries := df.length
    let organic_presence := countTrue (fun r => r.is_in_organic) df
    let local_pack_presence := countTrue (fun r => r.is_in_local_pack) df
    some
      { summary :=
          { business_name := r0.business_name
            total_queries := total_queries
            organic_presence := organic_presence
            organic_presence_pct :=
              (organic_presence : ℚ) / (total_queries : ℚ) * 100
            local_pack_presence := local_pack_presence
            local_pack_presence_pct :=
              (local_pack_presence : ℚ) / (total_queries : ℚ) * 100
            avg_organic_rank :=
              if 0 < organic_presence then
                some (ratMean (ranksOf (fun r => r.organic_rank) df))
              else none
            avg_local_rank :=
              if 0 < local_pack_presence then
                some (ratMean (ranksOf (fun r => r.local_pack_rank) df))
              else none }
        keyword_stats := (sortedKeywords df).map (keywordStatFor df)
        distance_stats := allBins.map (distanceStatFor df)
        raw_data := df }

theorem pydiv_ok {a b : ℚ} (hb : b ≠ 0) : pydiv a b = .ok (a / b) := by
  simp [pydiv, hb]

theorem pydiv_zero (a : ℚ) : pydiv a 0 = .error .zeroDivisionError := by
  simp [pydiv]

theorem truncInt_eq_floor {q : ℚ} (h : 0 ≤ q) : truncInt q = ⌊q⌋ := by
  simp [truncInt, h]

theorem truncInt_one_le {q : ℚ} (h : 1 ≤ q) : 1 ≤ truncInt q := by
  rw [truncInt_eq_floor (le_trans zero_le_one h)]
  exact Int.le_floor.mpr (by exact_mod_cast h)

theorem truncInt_eq_zero {q : ℚ} (h0 : 0 ≤ q) (h1 : q < 1) : truncInt q = 0 := by
  rw [truncInt_eq_floor h0]
  exact Int.floor_eq_zero_iff.mpr ⟨h0, h1⟩

theorem truncInt_le_neg_one {q : ℚ} (h : q ≤ -1) : truncInt q ≤ -1 := by
  have hq : ¬ (0 ≤ q) := by linarith
  have h1 : (1 : ℚ) ≤ -q := by linarith
  have : 1 ≤ ⌊-q⌋ := Int.le_floor.mpr (by exact_mod_cast h1)
  simp only [truncInt, hq, if_false]
  omega

theorem truncInt_mono {a b : ℚ} (h0 : 0 ≤ a) (hab : a ≤ b) :
    truncInt a ≤ truncInt b := by
  rw [truncInt_eq_floor h0, truncInt_eq_floor (le_trans h0 hab)]
  exact Int.floor_le_floor hab

theorem innerLoop_err {body : ℕ → Py (Option GridPoint)} {e : PyError}
    (j : ℕ) (js : List ℕ) (acc : List GridPoint) (h : body j = .error e) :
    innerLoop body (j :: js) acc = .error e := by
  simp [innerLoop, h]

theorem outerLoop_err {body : ℕ → List GridPoint → Py (List GridPoint)} {e : PyError}
    (i : ℕ) (is : List ℕ) (acc : List GridPoint) (h : body i acc = .error e) :
    outerLoop body (i :: is) acc = .error e := by
  simp [outerLoop, h]

theorem innerLoop_ok (body : ℕ → Py (Option GridPoint)) (cell : ℕ → Option GridPoint)
    (h : ∀ j, body j = .ok (cell j)) :
    ∀ (js : List ℕ) (acc : List GridPoint),
      innerLoop body js acc = .ok (acc ++ js.filterMap cell) := by
  intro js
  induction js with
  | nil => intro acc; simp [innerLoop]
  | cons j js ih =>
    intro acc
    rw [innerLoop, h j]
    cases hc : cell j with
    | none => simp [ih acc, List.filterMap_cons, hc]
    | some p => simp [ih (acc ++ [p]), List.filterMap_cons, hc]

theorem outerLoop_ok (body : ℕ → List GridPoint → Py (List GridPoint))
    (row : ℕ → List GridPoint)
    (h : ∀ i acc, body i acc = .ok (acc ++ row i)) :
    ∀ (is : List ℕ) (acc : List GridPoint),
      outerLoop body is acc = .ok (acc ++ is.flatMap row) := by
  intro is
  induction is with
  | nil => intro acc; simp [outerLoop]
  | cons i is ih =>
    intro acc
    rw [outerLoop, h i acc]
    simp [ih (acc ++ row i)]

theorem gridBody_ok_some {dist : ℚ → ℚ → ℚ → ℚ → ℚ}
    {clat clng r ldr lngr : ℚ} {ls lgs : ℤ} {i j : ℕ} {p : GridPoint}
    (h : gridBody dist clat clng r ldr lngr ls lgs i j = .ok (some p)) :
    p.distance_km ≤ r := by
  unfold gridBody at h
  cases h1 : pydiv (2 * ldr) ((ls : ℚ) - 1) with
  | error e => rw [h1] at h; cases h
  | ok stepLat =>
    rw [h1] at h
    cases h2 : pydiv (2 * lngr) ((lgs : ℚ) - 1) with
    | error e => rw [h2] at h; cases h
    | ok stepLng =>
      rw [h2] at h
      simp only at h
      split at h
      · cases h; assumption
      · cases h

theorem innerLoop_mem {body : ℕ → Py (Option GridPoint)} {P : GridPoint → Prop}
    (hb : ∀ j p, body j = .ok (some p) → P p) :
    ∀ (js : List ℕ) (acc out : List GridPoint),
      innerLoop body js acc = .ok out → (∀ q ∈ acc, P q) → ∀ q ∈ out, P q := by
  intro js
  induction js with
  | nil =>
    intro acc out h hacc
    simp only [innerLoop] at h
    cases h; exact hacc
  | cons j js ih =>
    intro acc out h hacc
    rw [innerLoop] at h
    cases hj : body j with
    | error e => rw [hj] at h; cases h
    | ok v =>
      rw [hj] at h
      cases v with
      | none => exact ih acc out h hacc
      | some p =>
        refine ih (acc ++ [p]) out h ?_
        intro q hq
        rcases List.mem_append.mp hq with hq | hq
        · exact hacc q hq
        · rcases List.mem_singleton.mp hq with rfl
          exact hb j q hj

theorem outerLoop_mem {body : ℕ → List GridPoint → Py (List GridPoint)}
    {P : GridPoint → Prop}
    (hb : ∀ i acc out, body i acc = .ok out → (∀ q ∈ acc, P q) → ∀ q ∈ out, P q) :
    ∀ (is : List ℕ) (acc out : List GridPoint),
      outerLoop body is acc = .ok out → (∀ q ∈ acc, P q) → ∀ q ∈ out, P q := by
  intro is
  induction is with
  | nil =>
    intro acc out h hacc
    simp only [outerLoop] at h
    cases h; exact hacc
  | cons i is ih =>
    intro acc out h hacc
    rw [outerLoop] at h
    cases hi : body i acc with
    | error e => rw [hi] at h; cases h
    | ok acc2 =>
      rw [hi] at h
      exact ih acc2 out h (hb i acc acc2 hi hacc)

theorem gridBody_eq_cell {ls lgs : ℤ} (h1 : (2:ℤ) ≤ ls) (h2 : (2:ℤ) ≤ lgs)
    (dist : ℚ → ℚ → ℚ → ℚ → ℚ) (clat clng r ldr lngr : ℚ) (i j : ℕ) :
    gridBody dist clat clng r ldr lngr ls lgs i j =
      .ok (gridCell dist clat clng r ldr lngr ls lgs i j) := by
  have d1 : ((ls : ℚ) - 1) ≠ 0 := by
    have h2l : (2:ℚ) ≤ (ls:ℚ) := by exact_mod_cast h1
    intro h; rw [sub_eq_zero] at h; rw [h] at h2l; norm_num at h2l
  have d2 : ((lgs : ℚ) - 1) ≠ 0 := by
    have h2l : (2:ℚ) ≤ (lgs:ℚ) := by exact_mod_cast h2
    intro h; rw [sub_eq_zero] at h; rw [h] at h2l; norm_num at h2l
  unfold gridBody gridCell
  simp only [pydiv_ok d1, pydiv_ok d2]
  split <;> rfl

theorem gridBody_one_err (dist : ℚ → ℚ → ℚ → ℚ → ℚ)
    (clat clng r ldr lngr : ℚ) (lgs : ℤ) (i j : ℕ) :
    gridBody dist clat clng r ldr lngr 1 lgs i j = .error .zeroDivisionError := by
  unfold gridBody
  have h : (((1:ℤ) : ℚ)) - 1 = 0 := by norm_num
  rw [h, pydiv_zero]

theorem generate_grid_ok (dist : ℚ → ℚ → ℚ → ℚ → ℚ) (clat clng r s cos : ℚ)
    (hc : cos ≠ 0) (_hr : 0 < r) (hs : 0 < s) (h2 : s ≤ 2 * r) :
    2 ≤ latStepsOf r s ∧
    lngStepsOf r s cos = latStepsOf r s ∧
    generate_grid dist clat clng r s cos =
      .ok (gridList dist clat clng r (r / 111) (r / (111 * cos))
            (latStepsOf r s) (latStepsOf r s)) := by
  have h111c : (111 : ℚ) * cos ≠ 0 := mul_ne_zero (by norm_num) hc
  have hs111 : s / 111 ≠ 0 := div_ne_zero (ne_of_gt hs) (by norm_num)
  have hd2 : s / (111 * cos) ≠ 0 := div_ne_zero (ne_of_gt hs) h111c
  have hs0 : s ≠ 0 := ne_of_gt hs
  have hq1 : 2 * (r / 111) / (s / 111) = 2 * r / s := by
    field_simp
  have hq2 : 2 * (r / (111 * cos)) / (s / (111 * cos)) = 2 * r / s := by
    field_simp
  have h1q : (1 : ℚ) ≤ 2 * r / s := (one_le_div hs).mpr (by linarith)
  have hlat : 2 ≤ latStepsOf r s := by
    have := truncInt_one_le (q := 2 * (r / 111) / (s / 111)) (by rw [hq1]; exact h1q)
    unfold latStepsOf
    omega
  have hlng : lngStepsOf r s cos = latStepsOf r s := by
    unfold lngStepsOf latStepsOf
    rw [hq1, hq2]
  refine ⟨hlat, hlng, ?_⟩
  unfold generate_grid
  simp only [pydiv_ok h111c, pydiv_ok hs111, pydiv_ok hd2]
  have e1 : truncInt (2 * (r / 111) / (s / 111)) + 1 = latStepsOf r s := rfl
  have e2 : truncInt (2 * (r / (111 * cos)) / (s / (111 * cos))) + 1 = latStepsOf r s := by
    rw [← hlng]; rfl
  rw [e1, e2]
  rw [outerLoop_ok _
    (fun i => (List.range (latStepsOf r s).toNat).filterMap
      (fun j => gridCell dist clat clng r (r / 111) (r / (111 * cos))
        (latStepsOf r s) (latStepsOf r s) i j))
    (fun i acc => innerLoop_ok _ _
      (fun j => gridBody_eq_cell hlat hlat dist clat clng r (r / 111) (r / (111 * cos)) i j)
      (List.range (latStepsOf r s).toNat) acc)]
  rw [gridList]
  simp

theorem generate_grid_one_step_err (dist : ℚ → ℚ → ℚ → ℚ → ℚ) (clat clng r s cos : ℚ)
    (hc : cos ≠ 0) (hs0 : s ≠ 0) (h0 : 0 ≤ 2 * r / s) (h1 : 2 * r / s < 1) :
    generate_grid dist clat clng r s cos = .error .zeroDivisionError := by
  have h111c : (111 : ℚ) * cos ≠ 0 := mul_ne_zero (by norm_num) hc
  have hs111 : s / 111 ≠ 0 := div_ne_zero hs0 (by norm_num)
  have hd2 : s / (111 * cos) ≠ 0 := div_ne_zero hs0 h111c
  have hq1 : 2 * (r / 111) / (s / 111) = 2 * r / s := by field_simp
  have hq2 : 2 * (r / (111 * cos)) / (s / (111 * cos)) = 2 * r / s := by field_simp
  have htr : truncInt (2 * r / s) = 0 := truncInt_eq_zero h0 h1
  unfold generate_grid
  simp only [pydiv_ok h111c, pydiv_ok hs111, pydiv_ok hd2, hq1, hq2, htr]
  have hone : ((0 : ℤ) + 1).toNat = 1 := rfl
  rw [hone]
  have hrange : List.range 1 = [0] := rfl
  rw [hrange]
  rw [outerLoop_err 0 [] []]
  rw [innerLoop_err 0 [] []]
  exact gridBody_one_err dist clat clng r (r / 111) (r / (111 * cos)) (0 + 1) 0 0

theorem generate_grid_neg_empty (dist : ℚ → ℚ → ℚ → ℚ → ℚ) (clat clng r s cos : ℚ)
    (hc : cos ≠ 0) (hs0 : s ≠ 0) (h : 2 * r / s ≤ -1) :
    generate_grid dist clat clng r s cos = .ok [] := by
  have h111c : (111 : ℚ) * cos ≠ 0 := mul_ne_zero (by norm_num) hc
  have hs111 : s / 111 ≠ 0 := div_ne_zero hs0 (by norm_num)
  have hd2 : s / (111 * cos) ≠ 0 := div_ne_zero hs0 h111c
  have hq1 : 2 * (r / 111) / (s / 111) = 2 * r / s := by field_simp
  have hq2 : 2 * (r / (111 * cos)) / (s / (111 * cos)) = 2 * r / s := by field_simp
  have htr : truncInt (2 * r / s) ≤ -1 := truncInt_le_neg_one h
  unfold generate_grid
  simp only [pydiv_ok h111c, pydiv_ok hs111, pydiv_ok hd2, hq1, hq2]
  have hzero : (truncInt (2 * r / s) + 1).toNat = 0 := by omega
  rw [hzero]
  have hrange : List.range 0 = [] := rfl
  rw [hrange]
  rfl

theorem generate_grid_spacing_zero (dist : ℚ → ℚ → ℚ → ℚ → ℚ) (clat clng r cos : ℚ)
    (hc : cos ≠ 0) :
    generate_grid dist clat clng r 0 cos = .error .zeroDivisionError := by
  have h111c : (111 : ℚ) * cos ≠ 0 := mul_ne_zero (by norm_num) hc
  unfold generate_grid
  have hz : (0 : ℚ) / 111 = 0 := zero_div 111
  simp only [pydiv_ok h111c, hz, pydiv_zero]

theorem mem_gridList {dist : ℚ → ℚ → ℚ → ℚ → ℚ}
    {clat clng r ldr lngr : ℚ} {n m : ℤ} {p : GridPoint} :
    p ∈ gridList dist clat clng r ldr lngr n m ↔
      ∃ i < n.toNat, ∃ j < m.toNat,
        gridCell dist clat clng r ldr lngr n m i j = some p := by
  unfold gridList
  simp only [List.mem_flatMap, List.mem_filterMap, List.mem_range]

theorem rankScan_eq (name : List Char) :
    ∀ (rs : List SerpResult) (k : ℕ),
      rankScan name k rs = (firstMatchPos (titleMatch name) rs).map (· + k) := by
  intro rs
  induction rs with
  | nil => intro k; rfl
  | cons r rs ih =>
    intro k
    by_cases h : pyIn (pyLower name) (pyLower (r.title.getD [])) = true
    · have ht : titleMatch name r = true := h
      rw [rankScan, if_pos h, firstMatchPos, if_pos ht]
      simp only [Option.map_some', Option.some.injEq]
      omega
    · have ht : ¬ titleMatch name r = true := h
      rw [rankScan, if_neg h, firstMatchPos, if_neg ht, ih (k + 1)]
      cases hfm : firstMatchPos (titleMatch name) rs with
      | none => rfl
      | some n =>
        simp only [Option.map_some', Option.some.injEq]
        omega

theorem firstMatchPos_bounds (p : SerpResult → Bool) :
    ∀ (rs : List SerpResult) (k : ℕ),
      firstMatchPos p rs = some k → 1 ≤ k ∧ k ≤ rs.length := by
  intro rs
  induction rs with
  | nil => intro k h; cases h
  | cons r rs ih =>
    intro k h
    rw [firstMatchPos] at h
    by_cases hp : p r = true
    · rw [if_pos hp] at h
      cases h
      simp only [List.length_cons]
      omega
    · rw [if_neg hp] at h
      cases hfm : firstMatchPos p rs with
      | none => rw [hfm] at h; cases h
      | some n =>
        rw [hfm] at h
        simp only [Option.map_some'] at h
        cases h
        have := ih n hfm
        simp only [List.length_cons]
        omega

theorem firstMatchPos_none (p : SerpResult → Bool) :
    ∀ rs : List SerpResult, (∀ r ∈ rs, p r = false) → firstMatchPos p rs = none := by
  intro rs
  induction rs with
  | nil => intro _; rfl
  | cons r rs ih =>
    intro h
    rw [firstMatchPos, if_neg (by simp [h r (by simp)])]
    rw [ih fun x hx => h x (List.mem_cons_of_mem r hx)]
    rfl

theorem generate_grid_eval_simple :
    generate_grid distZero 0 0 1 2 1 =
      .ok [⟨-1/111, -1/111, 0⟩, ⟨-1/111, 1/111, 0⟩,
           ⟨1/111, -1/111, 0⟩, ⟨1/111, 1/111, 0⟩] := by
  have h := generate_grid_ok distZero 0 0 1 2 1 (by norm_num) (by norm_num)
    (by norm_num) (by norm_num)
  rw [h.2.2]
  have hn : latStepsOf 1 2 = 2 := by
    norm_num [latStepsOf, truncInt]
  rw [hn]
  have h2 : ((2 : ℤ).toNat) = 2 := rfl
  have hr2 : List.range 2 = [0, 1] := rfl
  norm_num [gridList, gridCell, distZero, h2, hr2,
    List.flatMap_cons, List.flatMap_nil, List.filterMap_cons, List.filterMap_nil]

/-- Claim C1: for every input with `radius_km > 0` and `spacing_km > 0`,
every point in the list returned by `generate_grid` has `distance_km ≤
radius_km` (the distance filter at source lines 58-59 discards lattice
points farther than the radius); this holds for any distance collaborator
`dist` and any `cosLat`. -/
theorem grid_points_within_radius (dist : ℚ → ℚ → ℚ → ℚ → ℚ)
    (clat clng radius_km spacing_km cosLat : ℚ) (pts : List GridPoint)
    (_hr : 0 < radius_km) (_hs : 0 < spacing_km)
    (h : generate_grid dist clat clng radius_km spacing_km cosLat = .ok pts) :
    ∀ p ∈ pts, p.distance_km ≤ radius_km := by
  unfold generate_grid at h
  cases e1 : pydiv radius_km (111 * cosLat) with
  | error e => rw [e1] at h; exact Except.noConfusion h
  | ok lngr =>
    rw [e1] at h
    simp only at h
    cases e2 : pydiv (2 * (radius_km / 111)) (spacing_km / 111) with
    | error e => rw [e2] at h; exact Except.noConfusion h
    | ok q1 =>
      rw [e2] at h
      simp only at h
      cases e3 : pydiv spacing_km (111 * cosLat) with
      | error e => rw [e3] at h; exact Except.noConfusion h
      | ok d2 =>
        rw [e3] at h
        simp only at h
        cases e4 : pydiv (2 * lngr) d2 with
        | error e => rw [e4] at h; exact Except.noConfusion h
        | ok q2 =>
          rw [e4] at h
          simp only at h
          refine outerLoop_mem ?_ _ [] pts h (by simp)
          intro i acc out hio hacc
          refine innerLoop_mem ?_ _ acc out hio hacc
          intro j p hbp
          exact gridBody_ok_some hbp

/-- Witness for C1 at a concrete input: center `(0,0)`, radius 1, spacing 2,
`cosLat = 1`, trivial distance collaborator. -/
theorem grid_points_within_radius_witness :
    (0 : ℚ) < 1 ∧ (0 : ℚ) < 2 ∧
    (∀ p ∈ ([⟨-1/111, -1/111, 0⟩, ⟨-1/111, 1/111, 0⟩,
             ⟨1/111, -1/111, 0⟩, ⟨1/111, 1/111, 0⟩] : List GridPoint),
      p.distance_km ≤ 1) :=
  ⟨by norm_num, by norm_num,
    grid_points_within_radius distZero 0 0 1 2 1 _
      (by norm_num) (by norm_num) generate_grid_eval_simple⟩

/-- Counterexample to claim C2: at `radius_km = 1`, `spacing_km = -1` the
code raises nothing at all — it returns the empty list successfully — so
degenerate input does not fail with an `InvalidConfiguration` error (no such
validation exists anywhere in `generate_grid`). -/
theorem negative_spacing_returns_ok_empty :
    generate_grid distZero 0 0 1 (-1) 1 = .ok [] :=
  generate_grid_neg_empty distZero 0 0 1 (-1) 1 (by norm_num) (by norm_num)
    (by norm_num)

/-- Claim C2, amended: `generate_grid` performs no configuration validation.
With `cosLat ≠ 0`: spacing zero raises `ZeroDivisionError` (at the step-count
division, source line 47); a negative spacing with `-2·radius ≤ spacing < 0 <
radius` returns the empty list without raising (the loop ranges are empty);
and a zero radius with positive spacing raises `ZeroDivisionError` (inside
the loop body, source line 54). -/
theorem degenerate_config_behavior (dist : ℚ → ℚ → ℚ → ℚ → ℚ)
    (clat clng r s cos : ℚ) (hc : cos ≠ 0) :
    (s = 0 → generate_grid dist clat clng r s cos = .error .zeroDivisionError) ∧
    (0 < r → -(2 * r) ≤ s → s < 0 →
      generate_grid dist clat clng r s cos = .ok []) ∧
    (r = 0 → 0 < s →
      generate_grid dist clat clng r s cos = .error .zeroDivisionError) := by
  refine ⟨?_, ?_, ?_⟩
  · rintro rfl
    exact generate_grid_spacing_zero dist clat clng r cos hc
  · intro hr hges hneg
    refine generate_grid_neg_empty dist clat clng r s cos hc (ne_of_lt hneg) ?_
    rw [div_le_iff_of_neg hneg]
    linarith
  · rintro rfl hs
    refine generate_grid_one_step_err dist clat clng 0 s cos hc (ne_of_gt hs) ?_ ?_
    · simp
    · simp

/-- Witness for the amended C2 at concrete inputs. -/
theorem degenerate_config_behavior_witness :
    generate_grid distZero 0 0 1 0 1 = .error .zeroDivisionError ∧
    generate_grid distZero 0 0 1 (-2) 1 = .ok [] ∧
    generate_grid distZero 0 0 0 1 1 = .error .zeroDivisionError :=
  ⟨(degenerate_config_behavior distZero 0 0 1 0 1 (by norm_num)).1 rfl,
   (degenerate_config_behavior distZero 0 0 1 (-2) 1 (by norm_num)).2.1
     (by norm_num) (by norm_num) (by norm_num),
   (degenerate_config_behavior distZero 0 0 0 1 1 (by norm_num)).2.2 rfl
     (by norm_num)⟩

/-- Counterexample to claim C3: on an empty record collection the summarizer
returns no summary at all (`None`), not a summary with `total == 0`. -/
theorem empty_records_no_summary :
    (∃ sd : SummaryData, generate_summary_data [] = some sd) = False := by
  refine eq_false ?_
  rintro ⟨sd, h⟩
  simp [generate_summary_data] at h

/-- Claim C3, amended: on an empty record collection
`generate_summary_data` returns `None` (the `if not self.results_data`
guard, source lines 229-230) and raises nothing; a summary object is only
produced for a non-empty collection. -/
theorem empty_records_summary_none : generate_summary_data [] = none := rfl

/-- Counterexample to claim C6: a record at distance exactly 0 km is
assigned to no bucket at all (`pd.cut` with `bins=[0,1,2,5,inf]` leaves
values at or below the leftmost edge unbinned), rather than to the 0-1km
bucket. -/
theorem distance_zero_unbinned : distance_bin 0 = none := by
  norm_num [distance_bin]

/-- Claim C6, amended: the distance grouping assigns every record with
`0 < distance_km` to exactly one of the right-closed bins `(0,1]`, `(1,2]`,
`(2,5]`, `(5,∞)` — a point exactly on a boundary belongs to the lower
bucket — while a record with `distance_km ≤ 0` (in particular the center
point at distance 0) is assigned to no bucket and is excluded from the
distance grouping. -/
theorem distance_bin_assignment (d : ℚ) :
    (0 < d → distance_bin d =
      some (if d ≤ 1 then DistanceBin.b0to1
            else if d ≤ 2 then DistanceBin.b1to2
            else if d ≤ 5 then DistanceBin.b2to5
            else DistanceBin.b5plus)) ∧
    (d ≤ 0 → distance_bin d = none) := by
  constructor
  · intro h0
    by_cases h1 : d ≤ 1
    · rw [distance_bin, if_pos ⟨h0, h1⟩, if_pos h1]
    · have h1' : 1 < d := not_le.mp h1
      by_cases h2 : d ≤ 2
      · rw [distance_bin, if_neg (fun hx => h1 hx.2), if_pos ⟨h1', h2⟩,
          if_neg h1, if_pos h2]
      · have h2' : 2 < d := not_le.mp h2
        by_cases h3 : d ≤ 5
        · rw [distance_bin, if_neg (fun hx => h1 hx.2),
            if_neg (fun hx => h2 hx.2), if_pos ⟨h2', h3⟩,
            if_neg h1, if_neg h2, if_pos h3]
        · have h3' : 5 < d := not_le.mp h3
          rw [distance_bin, if_neg (fun hx => h1 hx.2),
            if_neg (fun hx => h2 hx.2), if_neg (fun hx => h3 hx.2),
            if_pos h3', if_neg h1, if_neg h2, if_neg h3]
  · intro h0
    rw [distance_bin, if_neg (fun hx => absurd hx.1 (not_lt.mpr h0)),
      if_neg (fun hx => absurd hx.1 (by linarith)),
      if_neg (fun hx => absurd hx.1 (by linarith)),
      if_neg (by push_neg; linarith)]

/-- Witness for the amended C6: distance exactly 1 km (a boundary) falls in
the lower bucket `(0,1]`; distance 0 falls in no bucket. -/
theorem distance_bin_assignment_witness :
    distance_bin 1 = some DistanceBin.b0to1 ∧ distance_bin 0 = none := by
  constructor
  · have h := (distance_bin_assignment 1).1 (by norm_num)
    rw [if_pos (le_refl (1 : ℚ))] at h
    exact h
  · exact (distance_bin_assignment 0).2 (by norm_num)

theorem rankScan_zero (name : List Char) (rs : List SerpResult) :
    rankScan name 0 rs = firstMatchPos (titleMatch name) rs := by
  rw [rankScan_eq]
  cases firstMatchPos (titleMatch name) rs <;> simp

/-- Claim C4: the rank finder returns the 1-based position of the first
entry whose title contains the business name as a case-insensitive
substring; it returns `None` when no entry matches, including on the empty
list; and it returns rank 1 when the first entry's title equals the
business name case-insensitively.  Stated for both result channels of
`find_business_rank`. -/
theorem find_rank_first_match (org loc : Option (List SerpResult))
    (name : List Char) :
    (∀ rs, org = some rs →
      (find_business_rank ⟨org, loc⟩ name).organic_rank =
        firstMatchPos (titleMatch name) rs) ∧
    (∀ rs, loc = some rs →
      (find_business_rank ⟨org, loc⟩ name).local_pack_rank =
        firstMatchPos (titleMatch name) rs) ∧
    (org = some [] → (find_business_rank ⟨org, loc⟩ name).organic_rank = none) ∧
    (∀ rs, org = some rs → (∀ r ∈ rs, titleMatch name r = false) →
      (find_business_rank ⟨org, loc⟩ name).organic_rank = none) ∧
    (∀ r rs, org = some (r :: rs) →
      pyLower (r.title.getD []) = pyLower name →
      (find_business_rank ⟨org, loc⟩ name).organic_rank = some 1) := by
  refine ⟨?_, ?_, ?_, ?_, ?_⟩
  · rintro rs rfl
    simp [find_business_rank, rankScan_zero]
  · rintro rs rfl
    simp [find_business_rank, rankScan_zero]
  · rintro rfl
    simp [find_business_rank, rankScan]
  · rintro rs rfl hnone
    simp [find_business_rank, rankScan_zero, firstMatchPos_none _ rs hnone]
  · rintro r rs rfl heq
    have hm : titleMatch name r = true := by
      rw [titleMatch, heq, pyIn]
      exact decide_eq_true ⟨[], [], by simp⟩
    simp [find_business_rank, rankScan_zero, firstMatchPos, hm]

/-- Witness for C4 at concrete inputs: business name `"ab"`, organic list
whose first title is `"AB"` (case-insensitively equal), empty local list. -/
theorem find_rank_first_match_witness :
    (find_business_rank
        ⟨some [SerpResult.mk (some ['A', 'B'])], some []⟩
        ['a', 'b']).organic_rank = some 1 :=
  (find_rank_first_match (some [SerpResult.mk (some ['A', 'B'])]) (some [])
    ['a', 'b']).2.2.2.2 (SerpResult.mk (some ['A', 'B'])) [] rfl (by decide)

/-- Claim C9: `find_business_rank` keeps `is_in_organic` equivalent to the
presence of `organic_rank` (and likewise for the local pack), and any
present rank is between 1 and the length of the corresponding result
list. -/
theorem rank_record_invariants (serp : SerpData) (name : List Char) :
    ((find_business_rank serp name).is_in_organic = true ↔
      (find_business_rank serp name).organic_rank ≠ none) ∧
    ((find_business_rank serp name).is_in_local_pack = true ↔
      (find_business_rank serp name).local_pack_rank ≠ none) ∧
    (∀ k, (find_business_rank serp name).organic_rank = some k →
      1 ≤ k ∧ k ≤ (serp.organic_results.getD []).length) ∧
    (∀ k, (find_business_rank serp name).local_pack_rank = some k →
      1 ≤ k ∧ k ≤ (serp.local_results.getD []).length) := by
  obtain ⟨org, loc⟩ := serp
  refine ⟨?_, ?_, ?_, ?_⟩
  · simp [find_business_rank, Option.isSome_iff_ne_none]
  · simp [find_business_rank, Option.isSome_iff_ne_none]
  · intro k hk
    cases org with
    | none => simp [find_business_rank] at hk
    | some rs =>
      simp only [find_business_rank, rankScan_zero] at hk
      have := firstMatchPos_bounds (titleMatch name) rs k hk
      simpa using this
  · intro k hk
    cases loc with
    | none => simp [find_business_rank] at hk
    | some rs =>
      simp only [find_business_rank, rankScan_zero] at hk
      have := firstMatchPos_bounds (titleMatch name) rs k hk
      simpa using this

/-- Witness for C9 at a concrete input: one matching organic entry. -/
theorem rank_record_invariants_witness :
    1 ≤ 1 ∧
    1 ≤ ((SerpData.mk (some [SerpResult.mk (some ['a'])])
          (some [])).organic_results.getD []).length :=
  (rank_record_invariants
    (SerpData.mk (some [SerpResult.mk (some ['a'])]) (some [])) ['a']).2.2.1 1
    (by decide)

/-- Claim C10: with the cosine of the center latitude positive (as it is
strictly between the poles), `radius_km > 0` and `0 < spacing_km ≤
2·radius_km`, both step counts are at least 2 — so the per-axis subdivision
denominators are nonzero — and `generate_grid` evaluates without any
division by zero, returning a list. -/
theorem no_div_zero_valid_config (dist : ℚ → ℚ → ℚ → ℚ → ℚ)
    (clat clng r s cos : ℚ)
    (hcos : 0 < cos) (hr : 0 < r) (hs : 0 < s) (hs2 : s ≤ 2 * r) :
    2 ≤ latStepsOf r s ∧ 2 ≤ lngStepsOf r s cos ∧
    ∃ pts, generate_grid dist clat clng r s cos = .ok pts := by
  obtain ⟨h1, h2, h3⟩ :=
    generate_grid_ok dist clat clng r s cos (ne_of_gt hcos) hr hs hs2
  exact ⟨h1, h2 ▸ h1, ⟨_, h3⟩⟩

/-- Witness for C10 at a concrete valid configuration. -/
theorem no_div_zero_valid_config_witness :
    2 ≤ latStepsOf 1 2 ∧ 2 ≤ lngStepsOf 1 2 1 ∧
    ∃ pts, generate_grid distZero 0 0 1 2 1 = .ok pts :=
  no_div_zero_valid_config distZero 0 0 1 2 1 (by norm_num) (by norm_num)
    (by norm_num) (by norm_num)

/-- Counterexample to claim C5: at radius 1, spacing 3 the computed row
count is 1, and `generate_grid` raises `ZeroDivisionError` (the in-loop
division by `lat_steps - 1 = 0`) instead of returning the single point at
`center - extent`. -/
theorem single_row_raises_div_zero :
    latStepsOf 1 3 = 1 ∧
    generate_grid distZero 0 0 1 3 1 = .error .zeroDivisionError := by
  constructor
  · norm_num [latStepsOf, truncInt]
  · exact generate_grid_one_step_err distZero 0 0 1 3 1 (by norm_num)
      (by norm_num) (by norm_num) (by norm_num)

/-- Claim C5, amended: when `spacing ≤ 2·radius` (so the step counts are at
least 2) the row count is `⌊2·lat_extent_deg/(spacing/111)⌋ + 1`, the column
count coincides with it (the cosine correction cancels), and the returned
points lie on the uniform lattice spanning `[center − extent, center +
extent]` with `rows − 1` equal subdivisions per axis; when the count is 1
(`spacing > 2·radius`), `generate_grid` raises `ZeroDivisionError` instead of
returning the single point at `center − extent`. -/
theorem lattice_layout (dist : ℚ → ℚ → ℚ → ℚ → ℚ) (clat clng r s cos : ℚ)
    (hc : cos ≠ 0) (hr : 0 < r) (hs : 0 < s) :
    (s ≤ 2 * r →
      latStepsOf r s = ⌊2 * (r / 111) / (s / 111)⌋ + 1 ∧
      lngStepsOf r s cos = latStepsOf r s ∧
      generate_grid dist clat clng r s cos =
        .ok (gridList dist clat clng r (r / 111) (r / (111 * cos))
              (latStepsOf r s) (latStepsOf r s)) ∧
      (∀ pts, generate_grid dist clat clng r s cos = .ok pts →
        ∀ p ∈ pts, ∃ i < (latStepsOf r s).toNat, ∃ j < (latStepsOf r s).toNat,
          p.lat = clat - r / 111 +
            (i : ℚ) * (2 * (r / 111) / (((latStepsOf r s) : ℚ) - 1)) ∧
          p.lng = clng - r / (111 * cos) +
            (j : ℚ) * (2 * (r / (111 * cos)) / (((latStepsOf r s) : ℚ) - 1)))) ∧
    (2 * r < s →
      generate_grid dist clat clng r s cos = .error .zeroDivisionError) := by
  constructor
  · intro h2
    obtain ⟨hge, hlng, hok⟩ := generate_grid_ok dist clat clng r s cos hc hr hs h2
    have hfl : latStepsOf r s = ⌊2 * (r / 111) / (s / 111)⌋ + 1 := by
      unfold latStepsOf
      rw [truncInt_eq_floor]
      positivity
    refine ⟨hfl, hlng, hok, ?_⟩
    intro pts hpts p hp
    rw [hok] at hpts
    cases hpts
    rw [mem_gridList] at hp
    obtain ⟨i, hi, j, hj, hcell⟩ := hp
    refine ⟨i, hi, j, hj, ?_⟩
    simp only [gridCell] at hcell
    split at hcell
    · cases hcell
      exact ⟨rfl, rfl⟩
    · cases hcell
  · intro h2
    refine generate_grid_one_step_err dist clat clng r s cos hc (ne_of_gt hs)
      (by positivity) ?_
    rw [div_lt_one hs]
    exact h2

/-- Witness for the amended C5 at radius 1, spacing 2 (step count 2). -/
theorem lattice_layout_witness :
    latStepsOf 1 2 = ⌊2 * ((1 : ℚ) / 111) / ((2 : ℚ) / 111)⌋ + 1 ∧
    generate_grid distZero 0 0 1 2 1 =
      .ok (gridList distZero 0 0 1 (1 / 111) (1 / (111 * 1))
            (latStepsOf 1 2) (latStepsOf 1 2)) := by
  have h := (lattice_layout distZero 0 0 1 2 1 (by norm_num) (by norm_num)
    (by norm_num)).1 (by norm_num)
  exact ⟨h.1, h.2.2.1⟩

/-- Counterexample to claim C7: with radius 1 and spacings `s1 = 1 ≤ s2 =
5`, the call at the coarser spacing `s2` returns no point count at all — it
raises `ZeroDivisionError` — while the finer call returns a list, so the
claimed count comparison fails for these spacings. -/
theorem coarser_spacing_returns_no_count :
    (∃ pts, generate_grid distZero 0 0 1 1 1 = .ok pts) ∧
    generate_grid distZero 0 0 1 5 1 = .error .zeroDivisionError := by
  constructor
  · exact ⟨_, (generate_grid_ok distZero 0 0 1 1 1 (by norm_num) (by norm_num)
      (by norm_num) (by norm_num)).2.2⟩
  · exact generate_grid_one_step_err distZero 0 0 1 5 1 (by norm_num)
      (by norm_num) (by norm_num) (by norm_num)

/-- Claim C7, amended: for fixed center, `radius > 0` and spacings `0 < s1 ≤
s2`: when `s2 ≤ 2·radius` both calls return lists, the per-axis step count
at `s2` is at most the one at `s1`, and the output depends on the spacing
only through that step count (equal counts give identical outputs, hence
equal point counts); when `s2 > 2·radius` the coarser call raises
`ZeroDivisionError` rather than returning a (smaller) list.  Whether the
filtered point count also shrinks strictly between different step counts
depends on the external geodesic distance values, which the code does not
determine. -/
theorem spacing_coarsening (dist : ℚ → ℚ → ℚ → ℚ → ℚ)
    (clat clng r s1 s2 cos : ℚ)
    (hc : cos ≠ 0) (hr : 0 < r) (h1 : 0 < s1) (h12 : s1 ≤ s2) :
    (s2 ≤ 2 * r →
      latStepsOf r s2 ≤ latStepsOf r s1 ∧
      ∃ p1 p2, generate_grid dist clat clng r s1 cos = .ok p1 ∧
        generate_grid dist clat clng r s2 cos = .ok p2 ∧
        (latStepsOf r s1 = latStepsOf r s2 → p1 = p2)) ∧
    (2 * r < s2 →
      generate_grid dist clat clng r s2 cos = .error .zeroDivisionError) := by
  have h2pos : 0 < s2 := lt_of_lt_of_le h1 h12
  constructor
  · intro hle
    have hq1 : 2 * (r / 111) / (s1 / 111) = 2 * r / s1 := by
      have : s1 ≠ 0 := ne_of_gt h1
      field_simp
    have hq2 : 2 * (r / 111) / (s2 / 111) = 2 * r / s2 := by
      have : s2 ≠ 0 := ne_of_gt h2pos
      field_simp
    have hmono : latStepsOf r s2 ≤ latStepsOf r s1 := by
      unfold latStepsOf
      have ht : truncInt (2 * (r / 111) / (s2 / 111)) ≤
          truncInt (2 * (r / 111) / (s1 / 111)) := by
        rw [hq1, hq2]
        refine truncInt_mono (by positivity) ?_
        exact div_le_div_of_nonneg_left (by linarith) h1 h12
      omega
    obtain ⟨-, -, hok1⟩ := generate_grid_ok dist clat clng r s1 cos hc hr h1
      (le_trans h12 hle)
    obtain ⟨-, -, hok2⟩ := generate_grid_ok dist clat clng r s2 cos hc hr h2pos hle
    refine ⟨hmono, _, _, hok1, hok2, ?_⟩
    intro he
    rw [he]
  · intro h2
    refine generate_grid_one_step_err dist clat clng r s2 cos hc
      (ne_of_gt h2pos) (by positivity) ?_
    rw [div_lt_one h2pos]
    exact h2

/-- Witness for the amended C7 at radius 1, spacings 1 and 2. -/
theorem spacing_coarsening_witness :
    latStepsOf 1 2 ≤ latStepsOf 1 1 ∧
    ∃ p1 p2, generate_grid distZero 0 0 1 1 1 = .ok p1 ∧
      generate_grid distZero 0 0 1 2 1 = .ok p2 ∧
      (latStepsOf 1 1 = latStepsOf 1 2 → p1 = p2) :=
  (spacing_coarsening distZero 0 0 1 1 2 1 (by norm_num) (by norm_num)
    (by norm_num) (by norm_num)).1 (by norm_num)

theorem gridCell_some_le {dist : ℚ → ℚ → ℚ → ℚ → ℚ}
    {clat clng r ldr lngr : ℚ} {n m : ℤ} {i j : ℕ} {p : GridPoint}
    (h : gridCell dist clat clng r ldr lngr n m i j = some p) :
    p.distance_km ≤ r := by
  simp only [gridCell] at h
  split at h
  · cases h; assumption
  · cases h

theorem cast_mirror_index {n : ℤ} {i : ℕ} (hn : 2 ≤ n) (hi : i < n.toNat) :
    ((n.toNat - 1 - i : ℕ) : ℚ) = (n : ℚ) - 1 - (i : ℚ) := by
  have ha : (1 : ℕ) ≤ n.toNat := by omega
  have hb : i ≤ n.toNat - 1 := by omega
  rw [Nat.cast_sub hb, Nat.cast_sub ha]
  have : ((n.toNat : ℤ)) = n := Int.toNat_of_nonneg (by omega)
  have hq : ((n.toNat : ℚ)) = (n : ℚ) := by exact_mod_cast congrArg Int.cast this
  rw [hq]
  norm_num

theorem gridCell_mirror_lat {dist : ℚ → ℚ → ℚ → ℚ → ℚ}
    {clat clng r ldr lngr : ℚ} {n : ℤ} {i j : ℕ} {p : GridPoint}
    (hn : 2 ≤ n) (hi : i < n.toNat)
    (hsym : ∀ la ln, dist clat clng (2 * clat - la) ln = dist clat clng la ln)
    (h : gridCell dist clat clng r ldr lngr n n i j = some p) :
    gridCell dist clat clng r ldr lngr n n (n.toNat - 1 - i) j =
      some ⟨2 * clat - p.lat, p.lng, p.distance_km⟩ := by
  have hA : ((n : ℚ) - 1) ≠ 0 := by
    have h2l : (2 : ℚ) ≤ (n : ℚ) := by exact_mod_cast hn
    intro hx; rw [sub_eq_zero] at hx; rw [hx] at h2l; norm_num at h2l
  have hidx : ((n.toNat - 1 - i : ℕ) : ℚ) = (n : ℚ) - 1 - (i : ℚ) :=
    cast_mirror_index hn hi
  have key : clat - ldr + ((n : ℚ) - 1 - (i : ℚ)) * (2 * ldr / ((n : ℚ) - 1)) =
      2 * clat - (clat - ldr + (i : ℚ) * (2 * ldr / ((n : ℚ) - 1))) := by
    field_simp
    ring
  simp only [gridCell] at h ⊢
  split at h
  · rename_i hle
    cases h
    rw [hidx, key, hsym, if_pos hle]
  · cases h

theorem gridCell_mirror_lng {dist : ℚ → ℚ → ℚ → ℚ → ℚ}
    {clat clng r ldr lngr : ℚ} {n : ℤ} {i j : ℕ} {p : GridPoint}
    (hn : 2 ≤ n) (hj : j < n.toNat)
    (hsym : ∀ la ln, dist clat clng la (2 * clng - ln) = dist clat clng la ln)
    (h : gridCell dist clat clng r ldr lngr n n i j = some p) :
    gridCell dist clat clng r ldr lngr n n i (n.toNat - 1 - j) =
      some ⟨p.lat, 2 * clng - p.lng, p.distance_km⟩ := by
  have hA : ((n : ℚ) - 1) ≠ 0 := by
    have h2l : (2 : ℚ) ≤ (n : ℚ) := by exact_mod_cast hn
    intro hx; rw [sub_eq_zero] at hx; rw [hx] at h2l; norm_num at h2l
  have hidx : ((n.toNat - 1 - j : ℕ) : ℚ) = (n : ℚ) - 1 - (j : ℚ) :=
    cast_mirror_index hn hj
  have key : clng - lngr + ((n : ℚ) - 1 - (j : ℚ)) * (2 * lngr / ((n : ℚ) - 1)) =
      2 * clng - (clng - lngr + (j : ℚ) * (2 * lngr / ((n : ℚ) - 1))) := by
    field_simp
    ring
  simp only [gridCell] at h ⊢
  split at h
  · rename_i hle
    cases h
    rw [hidx, key, hsym, if_pos hle]
  · cases h

/-- Claim C8: `generate_grid` at center `(37.7749, -122.4194)`, radius 1 km,
spacing 0.5 km produces a point set that contains the center itself with
`distance_km = 0`, has no point farther than 1 km from the center, and is
symmetric about the center in both axes.  Stated for any distance
collaborator that vanishes at the center and is invariant under reflecting
either coordinate through the center (true of a great-circle distance in
exact arithmetic), and any nonzero `cosLat`. -/
theorem concrete_grid_scenario (dist : ℚ → ℚ → ℚ → ℚ → ℚ) (cos : ℚ)
    (hc : cos ≠ 0)
    (h0 : dist 37.7749 (-122.4194) 37.7749 (-122.4194) = 0)
    (hlat : ∀ la ln, dist 37.7749 (-122.4194) (2 * 37.7749 - la) ln =
      dist 37.7749 (-122.4194) la ln)
    (hlng : ∀ la ln, dist 37.7749 (-122.4194) la (2 * (-122.4194) - ln) =
      dist 37.7749 (-122.4194) la ln) :
    ∃ pts, generate_grid dist 37.7749 (-122.4194) 1 0.5 cos = .ok pts ∧
      (⟨37.7749, -122.4194, 0⟩ : GridPoint) ∈ pts ∧
      (∀ p ∈ pts, p.distance_km ≤ 1) ∧
      (∀ p ∈ pts,
        (⟨2 * 37.7749 - p.lat, p.lng, p.distance_km⟩ : GridPoint) ∈ pts) ∧
      (∀ p ∈ pts,
        (⟨p.lat, 2 * (-122.4194) - p.lng, p.distance_km⟩ : GridPoint) ∈ pts) := by
  have hok := generate_grid_ok dist 37.7749 (-122.4194) 1 0.5 cos hc
    (by norm_num) (by norm_num) (by norm_num)
  have hn : latStepsOf 1 0.5 = 5 := by norm_num [latStepsOf, truncInt]
  have hok3 := hok.2.2
  rw [hn] at hok3
  have htn : ((5 : ℤ)).toNat = 5 := rfl
  refine ⟨gridList dist 37.7749 (-122.4194) 1 (1 / 111) (1 / (111 * cos)) 5 5,
    hok3, ?_, ?_, ?_, ?_⟩
  · rw [mem_gridList]
    refine ⟨2, by rw [htn]; omega, 2, by rw [htn]; omega, ?_⟩
    simp only [gridCell]
    have e4 : (((5 : ℤ) : ℚ) - 1) = 4 := by norm_num
    rw [e4]
    have hpla : (37.7749 : ℚ) - 1 / 111 + ((2 : ℕ) : ℚ) * (2 * (1 / 111) / 4) =
        37.7749 := by norm_num
    have hplng : (-122.4194 : ℚ) - 1 / (111 * cos) +
        ((2 : ℕ) : ℚ) * (2 * (1 / (111 * cos)) / 4) = -122.4194 := by
      push_cast
      ring
    rw [hpla, hplng, h0, if_pos (by norm_num : (0 : ℚ) ≤ 1)]
  · intro p hp
    rw [mem_gridList] at hp
    obtain ⟨i, _, j, _, hcell⟩ := hp
    exact gridCell_some_le hcell
  · intro p hp
    rw [mem_gridList] at hp ⊢
    obtain ⟨i, hi, j, hj, hcell⟩ := hp
    refine ⟨(5 : ℤ).toNat - 1 - i, by rw [htn] at hi ⊢; omega, j, hj, ?_⟩
    exact gridCell_mirror_lat (by norm_num) hi hlat hcell
  · intro p hp
    rw [mem_gridList] at hp ⊢
    obtain ⟨i, hi, j, hj, hcell⟩ := hp
    refine ⟨i, hi, (5 : ℤ).toNat - 1 - j, by rw [htn] at hj ⊢; omega, ?_⟩
    exact gridCell_mirror_lng (by norm_num) hj hlng hcell

/-- Witness for C8: the trivial distance collaborator and `cosLat = 1`. -/
theorem concrete_grid_scenario_witness :
    ∃ pts, generate_grid distZero 37.7749 (-122.4194) 1 0.5 1 = .ok pts ∧
      (⟨37.7749, -122.4194, 0⟩ : GridPoint) ∈ pts ∧
      (∀ p ∈ pts, p.distance_km ≤ 1) ∧
      (∀ p ∈ pts,
        (⟨2 * 37.7749 - p.lat, p.lng, p.distance_km⟩ : GridPoint) ∈ pts) ∧
      (∀ p ∈ pts,
        (⟨p.lat, 2 * (-122.4194) - p.lng, p.distance_km⟩ : GridPoint) ∈ pts) :=
  concrete_grid_scenario distZero 1 (by norm_num) rfl
    (fun _ _ => rfl) (fun _ _ => rfl)
